import Mathlib

/-!
Shallow embedding of the payment-integrity and authorization core of the
arthuzist commission-order platform (Node/Express + Supabase source), together
with theorems settling the frozen claims about it.

Conventions of the embedding:
- JS numbers that hold prices, counters and millisecond timestamps are `Nat`
  (the corresponding DB columns are INTEGER and all values in the source are
  nonnegative).
- The relational store is an explicit record of lists (`DB`); supabase
  `update ... eq` calls become `List.map` with a guard, `insert` appends,
  `select ... single()` becomes a lookup that succeeds only on exactly one
  matching row.
- Fallible code returns `Except String` or a status code paired with the new
  store.
- The HMAC-SHA256 primitive is an abstract function parameter (the theorems
  are universally quantified over it); hex decoding of a supplied signature
  string follows Node Buffer.from(s, hex) semantics.
-/

namespace Arthuzist

/-! ## Pricing engine (lib/pricing.js) -/

/-- One entry of a pricing map: display name plus price in rupees. -/
structure PriceEntry where
  name : String
  price : Nat
deriving DecidableEq, Repr

/-- The three keyed maps returned by getPricing, as association lists
(JS object keys are unique, first match wins). -/
structure Pricing where
  services : List (String × PriceEntry)
  sizes : List (String × PriceEntry)
  addons : List (String × PriceEntry)
deriving DecidableEq, Repr

/-- Association-list lookup, the embedding of JS object key access. -/
def plookup (m : List (String × PriceEntry)) (k : String) : Option PriceEntry :=
  (m.find? (fun p => p.1 == k)).map (·.2)

/-- The hardcoded fallback pricing set of getPricing (lib/pricing.js lines
building the defaults when the DB tables are empty). -/
def defaultPricing : Pricing :=
  { services := [("charcoal", ⟨"Charcoal Portrait", 1500⟩),
                 ("anime", ⟨"Anime Art", 1000⟩),
                 ("couple", ⟨"Couple Portrait", 3000⟩),
                 ("custom", ⟨"Custom", 2000⟩)],
    sizes := [("a4", ⟨"A4 (standard)", 0⟩), ("a3", ⟨"A3", 1500⟩)],
    addons := [("none", ⟨"None", 0⟩), ("framing", ⟨"Framing", 600⟩),
               ("express", ⟨"Express Delivery", 500⟩),
               ("both", ⟨"Framing + Express", 1100⟩)] }

/-- One resolved component of a price breakdown (key, name, price). -/
structure PriceComponent where
  key : String
  name : String
  price : Nat
deriving DecidableEq, Repr

/-- The return value of calculateOrderPrice. -/
structure PriceBreakdown where
  service : PriceComponent
  size : PriceComponent
  addons : PriceComponent
  basePrice : Nat
  sizePrice : Nat
  addonsPrice : Nat
  total : Nat
  advance : Nat
  remaining : Nat
deriving DecidableEq, Repr

/-- calculateOrderPrice (lib/pricing.js): looks up the three keys against the
active pricing set; a missing service or size key throws a descriptive error;
a missing addon key falls back to the entry keyed "none"
(`pricing.addons[addons] || pricing.addons.none`); if that fallback is also
absent the later `.price` access throws a TypeError, embedded here as the
error branch with a TypeError message. `Math.ceil(total / 2)` over nonnegative
integers is `(total + 1) / 2` in Nat division. -/
def calculateOrderPrice (pricing : Pricing) (service size addons : String) :
    Except String PriceBreakdown :=
  let serviceData := plookup pricing.services service
  let sizeData := plookup pricing.sizes size
  let addonData := (plookup pricing.addons addons).orElse
    (fun _ => plookup pricing.addons "none")
  match serviceData with
  | none => .error ("Invalid service: " ++ service)
  | some sd =>
    match sizeData with
    | none => .error ("Invalid size: " ++ size)
    | some zd =>
      match addonData with
      | none => .error "TypeError: Cannot read properties of undefined (reading price)"
      | some ad =>
        let basePrice := sd.price
        let sizePrice := zd.price
        let addonsPrice := ad.price
        let total := basePrice + sizePrice + addonsPrice
        let advance := (total + 1) / 2
        let remaining := total - advance
        .ok { service := ⟨service, sd.name, basePrice⟩,
              size := ⟨size, zd.name, sizePrice⟩,
              addons := ⟨addons, ad.name, addonsPrice⟩,
              basePrice := basePrice, sizePrice := sizePrice,
              addonsPrice := addonsPrice,
              total := total, advance := advance, remaining := remaining }

/-! ## Relational store -/

/-- A row of the orders table (the columns the payment core touches). -/
structure Order where
  id : Nat
  order_number : String
  user_id : Option Nat
  service_name : String
  size_name : String
  addons_name : String
  total : Nat
  advance : Nat
  remaining : Nat
  razorpay_order_id : Option String
  razorpay_payment_id : Option String
  razorpay_signature : Option String
  payment_verified : Bool
  status : String
  paid_at : Option Nat
  updated_at : Nat
  created_at : Nat
deriving DecidableEq, Repr

/-- A row of the tickets table. -/
structure Ticket where
  id : Nat
  ticket_number : String
  order_id : Option Nat
  user_id : Option Nat
  subject : String
  category : String
  status : String
  priority : String
  resolved_at : Option Nat
  updated_at : Nat
  created_at : Nat
deriving DecidableEq, Repr

/-- One attachment object of a ticket message. -/
structure Attachment where
  name : Option String
  mime : Option String
  url : String
deriving DecidableEq, Repr

/-- A row of the ticket_messages table. -/
structure TicketMessage where
  id : Nat
  ticket_id : Nat
  author_id : Option Nat
  author_name : String
  is_admin : Bool
  is_system : Bool
  message : String
  attachments : List Attachment
  created_at : Nat
deriving DecidableEq, Repr

/-- A row of the users table (the columns requireAuth selects). The
admin_permissions JSON object is an association list of named booleans. -/
structure UserRec where
  id : Nat
  email : String
  name : String
  role : String
  banned : Bool
  admin_permissions : Option (List (String × Bool))
deriving DecidableEq, Repr

/-- A row of the refresh_tokens table (the columns the guard touches). -/
structure RefreshTokenRec where
  id : Nat
  user_id : Nat
  revoked_at : Option Nat
deriving DecidableEq, Repr

/-- A row of the activity_logs table (logActivity insert). -/
structure LogEntry where
  user_id : Option Nat
  action : String
  resource_type : String
  resource_id : Option Nat
deriving DecidableEq, Repr

/-- The relational store shared by all handlers. -/
structure DB where
  users : List UserRec
  orders : List Order
  tickets : List Ticket
  ticket_messages : List TicketMessage
  refresh_tokens : List RefreshTokenRec
  activity_logs : List LogEntry
deriving DecidableEq, Repr

/-- logActivity (lib/logger.js): appends one audit row; best-effort, never
fails the caller. -/
def logAdd (db : DB) (uid : Option Nat) (action rtype : String)
    (rid : Option Nat) : DB :=
  { db with activity_logs := db.activity_logs ++ [⟨uid, action, rtype, rid⟩] }

/-- Embedding of a supabase select with .single(): succeeds only when exactly
one row matches the filter. -/
def findUnique (p : α → Bool) (l : List α) : Option α :=
  match l.filter p with
  | [x] => some x
  | _ => none

/-! ## Hex decoding of a signature string

Buffer.from(s, hex) in Node parses the string two characters at a time and
stops at the first pair that is not two hex digits; an odd trailing nibble is
dropped. timingSafeEqual throws when the lengths differ, which the verify
handler catches and treats as false, so the whole comparison of the supplied
signature against the lowercase hex digest is equality of the decoded byte
lists. -/

/-- Value of a hex digit, case insensitive. -/
def hexVal (c : Char) : Option Nat :=
  if '0' ≤ c ∧ c ≤ '9' then some (c.toNat - '0'.toNat)
  else if 'a' ≤ c ∧ c ≤ 'f' then some (c.toNat - 'a'.toNat + 10)
  else if 'A' ≤ c ∧ c ≤ 'F' then some (c.toNat - 'A'.toNat + 10)
  else none

/-- Node hex decoding over a character list. -/
def hexDecodeAux : List Char → List Nat
  | c1 :: c2 :: rest =>
    match hexVal c1, hexVal c2 with
    | some h, some l => (16 * h + l) :: hexDecodeAux rest
    | _, _ => []
  | _ => []

/-- Node Buffer.from(s, hex) as a byte list. -/
def hexDecode (s : String) : List Nat := hexDecodeAux s.data

/-! ## Client-initiated payment verification (api/payment/verify) -/

/-- The JSON body fields of the verify request. A missing or empty string is
falsy in the source; the internal order id is an Option with none for a falsy
value. -/
structure VerifyReq where
  razorpay_order_id : String
  razorpay_payment_id : String
  razorpay_signature : String
  order_id : Option Nat
deriving DecidableEq, Repr

/-- Status code plus the success flag of the verify JSON response. -/
structure VerifyResp where
  status : Nat
  success : Bool
deriving DecidableEq, Repr

/-- The system message the verify handler posts into the auto-created ticket
(template text abbreviated and locale number formatting elided; only the fact
that it references the order fields matters to the claims). -/
def confirmationMessage (o : Order) : String :=
  "Thank you for your order. Order ID: " ++ o.order_number ++
  ", Service: " ++ o.service_name ++ ", Size: " ++ o.size_name ++
  ", Add-ons: " ++ o.addons_name ++ ", Total: " ++ toString o.total ++
  ", Advance Paid: " ++ toString o.advance ++
  ", Remaining: " ++ toString o.remaining

/-- The payment verify handler (api/payment/verify.js), after CORS, method
check and rate limiting. Parameters: hmacBytes is the abstract HMAC-SHA256
digest (as bytes) of a message under a secret; now is the clock; ticketNumber,
newTicketId and newMsgId stand for the generated ticket number and the row ids
the store assigns to the inserted ticket and message. Steps in source order:
presence check of the four fields (400), timing-safe signature comparison
(400 and audit log), single-row order lookup by internal id and gateway order
id (404 and audit log), idempotent early success when already verified, then
the mark-paid update, ticket insert, system message insert and audit log. -/
def paymentVerify (hmacBytes : String → String → List Nat) (secret : String)
    (now : Nat) (ticketNumber : String) (newTicketId newMsgId : Nat)
    (req : VerifyReq) (db : DB) : VerifyResp × DB :=
  match req.order_id with
  | none => (⟨400, false⟩, logAdd db none "PAYMENT_VERIFY_MISSING_PARAMS" "payment" none)
  | some oid =>
    if req.razorpay_order_id = "" ∨ req.razorpay_payment_id = "" ∨
        req.razorpay_signature = "" then
      (⟨400, false⟩, logAdd db none "PAYMENT_VERIFY_MISSING_PARAMS" "payment" none)
    else
      let body := req.razorpay_order_id ++ "|" ++ req.razorpay_payment_id
      let expected := hmacBytes secret body
      if hexDecode req.razorpay_signature ≠ expected then
        (⟨400, false⟩, logAdd db none "PAYMENT_SIGNATURE_INVALID" "order" (some oid))
      else
        match findUnique
            (fun o => o.id == oid && o.razorpay_order_id == some req.razorpay_order_id)
            db.orders with
        | none => (⟨404, false⟩, logAdd db none "PAYMENT_ORDER_MISMATCH" "order" (some oid))
        | some o =>
          if o.payment_verified then (⟨200, true⟩, db)
          else
            let db1 : DB :=
              { db with orders := db.orders.map (fun x =>
                  if x.id == oid then
                    { x with razorpay_payment_id := some req.razorpay_payment_id,
                             razorpay_signature := some req.razorpay_signature,
                             payment_verified := true,
                             status := "advance_paid",
                             paid_at := some now,
                             updated_at := now }
                  else x) }
            let tk : Ticket :=
              { id := newTicketId, ticket_number := ticketNumber,
                order_id := some o.id, user_id := o.user_id,
                subject := "Order " ++ o.order_number ++ " - " ++ o.service_name,
                category := "order", status := "open", priority := "normal",
                resolved_at := none, updated_at := now, created_at := now }
            let db2 : DB := { db1 with tickets := db1.tickets ++ [tk] }
            let msg : TicketMessage :=
              { id := newMsgId, ticket_id := newTicketId, author_id := none,
                author_name := "System", is_admin := false, is_system := true,
                message := confirmationMessage o, attachments := [],
                created_at := now }
            let db3 : DB := { db2 with ticket_messages := db2.ticket_messages ++ [msg] }
            (⟨200, true⟩, logAdd db3 o.user_id "PAYMENT_VERIFIED" "order" (some o.id))

/-! ## Webhook handler (api/payment/webhook.js) -/

/-- payload.payment.entity of a webhook event. -/
structure PaymentEntity where
  id : String
  order_id : String
  amount : Nat
deriving DecidableEq, Repr

/-- payload.order.entity of a webhook event. -/
structure OrderEntity where
  id : String
deriving DecidableEq, Repr

/-- An inbound webhook request: method, the x-razorpay-signature header, the
raw JSON body string, the parsed event name and the optional payload
entities. -/
structure WebhookReq where
  method : String
  signature : Option String
  rawBody : String
  event : String
  payment : Option PaymentEntity
  orderEntity : Option OrderEntity
deriving DecidableEq, Repr

/-- handlePaymentCaptured: find the order by gateway order id; skip when not
found or already verified; otherwise record the payment id, mark paid and
audit-log. Never creates a ticket. -/
def handlePaymentCaptured (now : Nat) (payment : Option PaymentEntity)
    (db : DB) : DB :=
  match payment with
  | none => db
  | some p =>
    match findUnique (fun o => o.razorpay_order_id == some p.order_id) db.orders with
    | none => db
    | some o =>
      if o.payment_verified then db
      else
        let db1 : DB :=
          { db with orders := db.orders.map (fun x =>
              if x.id == o.id then
                { x with razorpay_payment_id := some p.id,
                         payment_verified := true,
                         status := "advance_paid",
                         paid_at := some now,
                         updated_at := now }
              else x) }
        logAdd db1 o.user_id "PAYMENT_CAPTURED_WEBHOOK" "order" (some o.id)

/-- handlePaymentFailed: find the order and audit-log the failure; no order
mutation. -/
def handlePaymentFailed (payment : Option PaymentEntity) (db : DB) : DB :=
  match payment with
  | none => db
  | some p =>
    match findUnique (fun o => o.razorpay_order_id == some p.order_id) db.orders with
    | none => db
    | some o => logAdd db o.user_id "PAYMENT_FAILED_WEBHOOK" "order" (some o.id)

/-- handleOrderPaid: backup verification; find the order by gateway order id,
skip when not found or already verified, else mark paid (without recording a
payment id) and audit-log. Never creates a ticket. -/
def handleOrderPaid (now : Nat) (orderEntity : Option OrderEntity) (db : DB) : DB :=
  match orderEntity with
  | none => db
  | some e =>
    match findUnique (fun o => o.razorpay_order_id == some e.id) db.orders with
    | none => db
    | some o =>
      if o.payment_verified then db
      else
        let db1 : DB :=
          { db with orders := db.orders.map (fun x =>
              if x.id == o.id then
                { x with payment_verified := true,
                         status := "advance_paid",
                         paid_at := some now,
                         updated_at := now }
              else x) }
        logAdd db1 o.user_id "ORDER_PAID_WEBHOOK" "order" (some o.id)

/-- The webhook endpoint (api/payment/webhook.js module export). hmacHex is
the abstract HMAC-SHA256 hex digest used for the raw-body signature, compared
with plain string equality as in the source. When a webhook secret is
configured, a missing signature header is answered 400 and a wrong one 400
with an audit log; otherwise the signature check is skipped. The event then
dispatches to the three handlers (unknown events are ignored) and the
endpoint acknowledges with 200. -/
def webhookHandler (hmacHex : String → String → String)
    (webhookSecret : Option String) (now : Nat) (req : WebhookReq)
    (db : DB) : Nat × DB :=
  if req.method ≠ "POST" then (405, db)
  else
    let sigCheck : Option (Nat × DB) :=
      match webhookSecret with
      | none => none
      | some s =>
        match req.signature with
        | none => some (400, db)
        | some g =>
          if g ≠ hmacHex s req.rawBody then
            some (400, logAdd db none "WEBHOOK_SIGNATURE_INVALID" "webhook" none)
          else none
    match sigCheck with
    | some r => r
    | none =>
      let db1 :=
        if req.event = "payment.captured" then handlePaymentCaptured now req.payment db
        else if req.event = "payment.failed" then handlePaymentFailed req.payment db
        else if req.event = "order.paid" then handleOrderPaid now req.orderEntity db
        else db
      (200, db1)

/-! ## Permission guard (lib/middleware.js and the per-endpoint
checkPermissionOrTerminate) -/

/-- ASCII lowercase of one character, the effect of JS toLowerCase on the
ASCII emails this system handles. -/
def lowerChar (c : Char) : Char :=
  if 'A' ≤ c ∧ c ≤ 'Z' then Char.ofNat (c.toNat + 32) else c

/-- ASCII lowercase of a string (JS String.prototype.toLowerCase restricted
to ASCII). -/
def lowerString (s : String) : String := ⟨s.data.map lowerChar⟩

/-- isSuperAdmin (lib/middleware.js): admin role and a lowercased email in the
configured allow-list (getSuperAdmins is modelled by passing the already
trimmed, lowercased list). -/
def isSuperAdmin (superAdmins : List String) (u : UserRec) : Bool :=
  u.role == "admin" && superAdmins.contains (lowerString u.email)

/-- JS lookup perms[permission] on the stored admin_permissions object, with
`user.admin_permissions || \x7b\x7d` defaulting to the empty object. -/
def permsLookup (u : UserRec) (permission : String) : Option Bool :=
  ((u.admin_permissions.getD []).find? (fun p => p.1 == permission)).map (·.2)

/-- hasPermission (lib/middleware.js): non-admins never pass, super admins
always pass, otherwise the stored permission entry must be truthy. -/
def hasPermission (superAdmins : List String) (u : UserRec)
    (permission : String) : Bool :=
  if u.role != "admin" then false
  else if isSuperAdmin superAdmins u then true
  else (permsLookup u permission).getD false

/-- Status code plus the terminated flag of the guard JSON response. -/
structure GuardResp where
  status : Nat
  terminated : Bool
deriving DecidableEq, Repr

/-- checkPermissionOrTerminate, the guard duplicated across the admin
endpoints (api/orders/index.js, api/tickets/[id].js, api/gallery, ...): super
admins and admins holding the permission pass untouched; otherwise the user
row is demoted to role user with admin_permissions cleared, every refresh
token row of the user gets revoked_at stamped, an access-violation audit row
is appended, and a 403 response with terminated set is produced. Returns
(allowed, new store, response when denied). -/
def checkPermissionOrTerminate (superAdmins : List String) (now : Nat)
    (user : UserRec) (permission : String) (db : DB) :
    Bool × DB × Option GuardResp :=
  if isSuperAdmin superAdmins user then (true, db, none)
  else if hasPermission superAdmins user permission then (true, db, none)
  else
    let db1 : DB :=
      { db with users := db.users.map (fun u =>
          if u.id == user.id then
            { u with role := "user", admin_permissions := none }
          else u) }
    let db2 : DB :=
      { db1 with refresh_tokens := db1.refresh_tokens.map (fun t =>
          if t.user_id == user.id then { t with revoked_at := some now }
          else t) }
    (false, logAdd db2 (some user.id) "ADMIN_ACCESS_TERMINATED" "user" (some user.id),
      some ⟨403, true⟩)

/-! ## Rate limiter (checkRateLimit in lib/middleware.js) -/

/-- The single rate_limits row for one (identifier, action) pair. -/
structure RLRow where
  attempts : Nat
  window_start : Nat
  blocked_until : Option Nat
deriving DecidableEq, Repr

/-- Outcome of one checkRateLimit call: whether the request is allowed, the
retry-after seconds reported on rejection, and the row left in the store. -/
structure RLResult where
  allowed : Bool
  retryAfter : Option Nat
  row : Option RLRow
deriving DecidableEq, Repr

/-- checkRateLimit (lib/middleware.js) acting on the single (identifier,
action) row, times in milliseconds. Source order: an absent row is inserted
with attempts 1 and the request allowed; a blocked_until in the future
rejects with ceil((blocked_until - now) / 1000) seconds of retry-after; a
current window (window_start strictly newer than now - windowMs, written
without subtraction as now < window_start + windowMs) either blocks for five
minutes when attempts is already at the maximum or increments and allows; an
expired window resets to attempts 1, restarts the window and clears any
block. -/
def checkRateLimitStep (row : Option RLRow) (now maxAttempts windowMs : Nat) :
    RLResult :=
  match row with
  | none => ⟨true, none, some ⟨1, now, none⟩⟩
  | some l =>
    let activeBlock : Bool :=
      match l.blocked_until with
      | some b => decide (now < b)
      | none => false
    if activeBlock then
      match l.blocked_until with
      | some b => ⟨false, some ((b - now + 999) / 1000), some l⟩
      | none => ⟨false, none, some l⟩
    else if now < l.window_start + windowMs then
      if maxAttempts ≤ l.attempts then
        ⟨false, some 300, some { l with blocked_until := some (now + 300000) }⟩
      else
        ⟨true, none, some { l with attempts := l.attempts + 1 }⟩
    else
      ⟨true, none, some ⟨1, now, none⟩⟩

/-- The row after k successive checkRateLimit calls at the same instant,
starting with no row for the pair. -/
def runAttempts : Nat → Nat → Nat → Nat → Option RLRow
  | 0, _, _, _ => none
  | Nat.succ k, now, maxA, winMs =>
    (checkRateLimitStep (runAttempts k now maxA winMs) now maxA winMs).row

/-! ## Validators (lib/validators.js) and the ticket message endpoint -/

/-- One left-to-right, non-overlapping pass removing case-insensitive
occurrences of javascript: from a character list, the effect of the global
case-insensitive replace in sanitizeString. -/
def stripJsAux (l : List Char) : List Char :=
  match l with
  | [] => []
  | c :: rest =>
    if ((c :: rest).take 11).map lowerChar = "javascript:".data then
      stripJsAux ((c :: rest).drop 11)
    else c :: stripJsAux rest
termination_by l.length
decreasing_by
  all_goals simp
  all_goals omega

/-- sanitizeString (lib/validators.js): strip angle brackets, strip
javascript: occurrences, trim. An empty input returns the empty string. -/
def sanitizeString (s : String) : String :=
  if s = "" then ""
  else (String.mk (stripJsAux (s.data.filter
    (fun c => !(c == '<' || c == '>'))))).trim

/-- One attachment passes the Joi item schema: optional name up to 255,
optional type up to 100, required nonempty url up to 500000. -/
def validAttachment (a : Attachment) : Bool :=
  (match a.name with | some n => n.length ≤ 255 | none => true) &&
  (match a.mime with | some t => t.length ≤ 100 | none => true) &&
  (1 ≤ a.url.length && a.url.length ≤ 500000)

/-- validateMessage (lib/validators.js): message between 1 and 2000
characters, at most 5 valid attachments; on success the top-level string is
sanitized (the attachments array is not a top-level string and is left
untouched by the sanitizing loop). -/
def validateMessage (message : String) (attachments : List Attachment) :
    Option (String × List Attachment) :=
  if 1 ≤ message.length ∧ message.length ≤ 2000 ∧
      attachments.length ≤ 5 ∧ attachments.all validAttachment then
    some (sanitizeString message, attachments)
  else none

/-- handleAddMessage (api/tickets/[id]/messages.js), after auth and rate
limiting: 404 when the ticket is missing, 403 for a non-admin non-owner, 400
when the ticket is closed (before validation and before any insert), 400 on
validation failure; otherwise append the message row, flip the ticket status
(admin reply on open goes to pending, user reply on pending goes back to
open), stamp updated_at, audit-log and answer 201. -/
def handleAddMessage (user : UserRec) (ticketId : Nat) (message : String)
    (attachments : List Attachment) (now msgId : Nat) (db : DB) : Nat × DB :=
  match findUnique (fun t => t.id == ticketId) db.tickets with
  | none => (404, db)
  | some t =>
    if user.role ≠ "admin" ∧ t.user_id ≠ some user.id then (403, db)
    else if t.status = "closed" then (400, db)
    else
      match validateMessage message attachments with
      | none => (400, db)
      | some (msg, atts) =>
        let isAdmin := user.role == "admin"
        let db1 : DB :=
          { db with ticket_messages := db.ticket_messages ++
              [⟨msgId, ticketId, some user.id, user.name, isAdmin, false, msg,
                atts, now⟩] }
        let newStatus : Option String :=
          if isAdmin && t.status == "open" then some "pending"
          else if !isAdmin && t.status == "pending" then some "open"
          else none
        let db2 : DB :=
          { db1 with tickets := db1.tickets.map (fun x =>
              if x.id == ticketId then
                { x with status := newStatus.getD x.status, updated_at := now }
              else x) }
        (201, logAdd db2 (some user.id) "TICKET_MESSAGE_ADDED" "ticket" (some ticketId))

/-! ## Ticket status update (api/tickets/[id].js PATCH) -/

/-- The status values handleUpdateTicket accepts. -/
def validStatuses : List String :=
  ["open", "pending", "in_progress", "resolved", "closed"]

/-- The priority values handleUpdateTicket accepts. -/
def validPriorities : List String := ["low", "normal", "high", "urgent"]

/-- The tail of handleUpdateTicket once the ticket is fetched and ownership
resolved: validate the requested status (400 for an unknown value, 403 when a
non-admin requests anything but closed), then the requested priority (admin
only, guard-checked, 400 for an unknown value), then apply the accumulated
update to the ticket row, audit-log when a status was set, and answer 200. -/
def handleUpdateTicketCore (superAdmins : List String) (user : UserRec)
    (t : Ticket) (status priority : Option String) (now : Nat) (db : DB) :
    Nat × DB :=
  let statusError : Option Nat :=
    match status with
    | none => none
    | some s =>
      if ¬ validStatuses.contains s then some 400
      else if user.role ≠ "admin" ∧ s ≠ "closed" then some 403
      else none
  match statusError with
  | some code => (code, db)
  | none =>
    let finish := fun (db0 : DB) (prio : Option String) =>
      let db1 : DB :=
        { db0 with tickets := db0.tickets.map (fun x =>
            if x.id == t.id then
              { x with
                  updated_at := now,
                  status := (status.getD x.status),
                  resolved_at :=
                    match status with
                    | some s =>
                      if s = "resolved" ∨ s = "closed" then some now
                      else x.resolved_at
                    | none => x.resolved_at,
                  priority := prio.getD x.priority }
            else x) }
      match status with
      | some _ =>
        (200, logAdd db1 (some user.id) "TICKET_STATUS_UPDATED" "ticket" (some t.id))
      | none => (200, db1)
    match priority with
    | none => finish db none
    | some p =>
      if user.role ≠ "admin" then (403, db)
      else
        match checkPermissionOrTerminate superAdmins now user "manage_tickets" db with
        | (false, dbX, _) => (403, dbX)
        | (true, dbX, _) =>
          if ¬ validPriorities.contains p then (400, dbX)
          else finish dbX (some p)

/-- handleUpdateTicket (api/tickets/[id].js), after auth: 404 when the ticket
is missing; a non-owner must be an admin (403 otherwise) and passes the
manage_tickets guard, which may terminate them; then the core status and
priority handling runs. -/
def handleUpdateTicket (superAdmins : List String) (user : UserRec)
    (ticketId : Nat) (status priority : Option String) (now : Nat) (db : DB) :
    Nat × DB :=
  match findUnique (fun t => t.id == ticketId) db.tickets with
  | none => (404, db)
  | some t =>
    if t.user_id ≠ some user.id then
      if user.role ≠ "admin" then (403, db)
      else
        match checkPermissionOrTerminate superAdmins now user "manage_tickets" db with
        | (false, dbX, _) => (403, dbX)
        | (true, dbX, _) => handleUpdateTicketCore superAdmins user t status priority now dbX
    else handleUpdateTicketCore superAdmins user t status priority now db

/-! ## Order listing (api/orders/index.js GET) -/

/-- The created_at descending ordering the listing query requests. -/
def sortByCreatedDesc (l : List Order) : List Order :=
  l.mergeSort (fun a b => b.created_at ≤ a.created_at)

/-- The rows the non-admin branch of the listing query returns: the eq
filter on user_id, the created_at descending order, then the range window. -/
def listOwnOrders (user : UserRec) (offset limit : Nat) (db : DB) : List Order :=
  ((sortByCreatedDesc (db.orders.filter
    (fun o => o.user_id == some user.id))).drop offset).take limit

/-- handleGetOrders (api/orders/index.js), after auth: non-admin users get
the orders whose user_id equals their own id; admins pass the manage_orders
guard (which may terminate them) and get every order. parseInt-or-default
pagination: page falls back to 1 on absence or zero, limit to 20, capped at
100; the filtered, sorted rows are then windowed by range(offset,
offset + limit - 1). Returns status, the rows of the response, and the
store. -/
def handleGetOrders (superAdmins : List String) (now : Nat) (user : UserRec)
    (pageQ limitQ : Option Nat) (db : DB) : Nat × List Order × DB :=
  let page := match pageQ with | none => 1 | some 0 => 1 | some p => p
  let limit :=
    min (match limitQ with | none => 20 | some 0 => 20 | some l => l) 100
  let offset := (page - 1) * limit
  if user.role ≠ "admin" then
    (200, listOwnOrders user offset limit db, db)
  else
    match checkPermissionOrTerminate superAdmins now user "manage_orders" db with
    | (false, dbX, _) => (403, [], dbX)
    | (true, dbX, _) =>
      (200, ((sortByCreatedDesc dbX.orders).drop offset).take limit, dbX)

/-! ## Sample rows for concrete witnesses -/

/-- Sample order row used by concrete witnesses: unpaid, gateway order rz1. -/
def sampleOrder : Order :=
  { id := 1, order_number := "ORD1", user_id := some 7,
    service_name := "Anime Art", size_name := "A4 (standard)",
    addons_name := "None", total := 1000, advance := 500, remaining := 500,
    razorpay_order_id := some "rz1", razorpay_payment_id := none,
    razorpay_signature := none, payment_verified := false, status := "pending",
    paid_at := none, updated_at := 0, created_at := 0 }

/-- Sample store holding just the sample order. -/
def sampleDB : DB :=
  { users := [], orders := [sampleOrder], tickets := [], ticket_messages := [],
    refresh_tokens := [], activity_logs := [] }

end Arthuzist

namespace Arthuzist

/-- C6: for every (service, size, addons) triple whose keys are all present in
the active pricing set, calculateOrderPrice returns
total = base + size + addons, advance = ceil(total/2) (Nat ceiling division),
remaining = total - advance, and advance + remaining = total. -/
theorem calculateOrderPrice_arith (pricing : Pricing) (service size addons : String)
    (sd zd ad : PriceEntry)
    (hs : plookup pricing.services service = some sd)
    (hz : plookup pricing.sizes size = some zd)
    (ha : plookup pricing.addons addons = some ad) :
    ∃ b : PriceBreakdown,
      calculateOrderPrice pricing service size addons = .ok b ∧
      b.total = sd.price + zd.price + ad.price ∧
      b.advance = (b.total + 1) / 2 ∧
      b.remaining = b.total - b.advance ∧
      b.advance + b.remaining = b.total := by
  refine ⟨{ service := ⟨service, sd.name, sd.price⟩,
            size := ⟨size, zd.name, zd.price⟩,
            addons := ⟨addons, ad.name, ad.price⟩,
            basePrice := sd.price, sizePrice := zd.price, addonsPrice := ad.price,
            total := sd.price + zd.price + ad.price,
            advance := (sd.price + zd.price + ad.price + 1) / 2,
            remaining := sd.price + zd.price + ad.price -
              (sd.price + zd.price + ad.price + 1) / 2 }, ?_, rfl, rfl, rfl, ?_⟩
  · simp [calculateOrderPrice, hs, hz, ha, Option.orElse]
  · simp only []
    omega

/-- Witness for C6 at the default pricing set: anime + a4 + none gives
total 1000, advance 500, remaining 500. -/
theorem calculateOrderPrice_arith_witness :
    ∃ b : PriceBreakdown,
      calculateOrderPrice defaultPricing "anime" "a4" "none" = .ok b ∧
      b.total = 1000 + 0 + 0 ∧
      b.advance = (b.total + 1) / 2 ∧
      b.remaining = b.total - b.advance ∧
      b.advance + b.remaining = b.total :=
  calculateOrderPrice_arith defaultPricing "anime" "a4" "none"
    ⟨"Anime Art", 1000⟩ ⟨"A4 (standard)", 0⟩ ⟨"None", 0⟩
    (by decide) (by decide) (by decide)

/-- C7: an unknown service key or unknown size key always makes
calculateOrderPrice fail with a descriptive error naming the bad key, while an
unknown (or omitted, i.e. defaulted to "none") addon key silently resolves to
the addon entry keyed "none" instead of failing. -/
theorem calculateOrderPrice_unknown_keys (pricing : Pricing) (service size addons : String) :
    (plookup pricing.services service = none →
      calculateOrderPrice pricing service size addons =
        .error ("Invalid service: " ++ service)) ∧
    (∀ sd, plookup pricing.services service = some sd →
      plookup pricing.sizes size = none →
      calculateOrderPrice pricing service size addons =
        .error ("Invalid size: " ++ size)) ∧
    (∀ sd zd en, plookup pricing.services service = some sd →
      plookup pricing.sizes size = some zd →
      plookup pricing.addons addons = none →
      plookup pricing.addons "none" = some en →
      ∃ b : PriceBreakdown,
        calculateOrderPrice pricing service size addons = .ok b ∧
        b.addons.name = en.name ∧ b.addonsPrice = en.price) := by
  refine ⟨fun hs => ?_, fun sd hs hz => ?_, fun sd zd en hs hz ha hn => ?_⟩
  · simp [calculateOrderPrice, hs]
  · simp [calculateOrderPrice, hs, hz]
  · refine ⟨{ service := ⟨service, sd.name, sd.price⟩,
              size := ⟨size, zd.name, zd.price⟩,
              addons := ⟨addons, en.name, en.price⟩,
              basePrice := sd.price, sizePrice := zd.price, addonsPrice := en.price,
              total := sd.price + zd.price + en.price,
              advance := (sd.price + zd.price + en.price + 1) / 2,
              remaining := sd.price + zd.price + en.price -
                (sd.price + zd.price + en.price + 1) / 2 }, ?_, rfl, rfl⟩
    simp [calculateOrderPrice, hs, hz, ha, hn, Option.orElse]

/-- Witness for C7 at the default pricing set: unknown service "oil" fails,
known service with unknown size "a5" fails, and unknown addon "gift" resolves
to the None entry with price 0. -/
theorem calculateOrderPrice_unknown_keys_witness :
    (calculateOrderPrice defaultPricing "oil" "a4" "none" =
      .error ("Invalid service: " ++ "oil")) ∧
    (calculateOrderPrice defaultPricing "anime" "a5" "none" =
      .error ("Invalid size: " ++ "a5")) ∧
    (∃ b : PriceBreakdown,
      calculateOrderPrice defaultPricing "anime" "a4" "gift" = .ok b ∧
      b.addons.name = "None" ∧ b.addonsPrice = 0) := by
  refine ⟨?_, ?_, ?_⟩
  · exact (calculateOrderPrice_unknown_keys defaultPricing "oil" "a4" "none").1
      (by decide)
  · exact (calculateOrderPrice_unknown_keys defaultPricing "anime" "a5" "none").2.1
      ⟨"Anime Art", 1000⟩ (by decide) (by decide)
  · exact (calculateOrderPrice_unknown_keys defaultPricing "anime" "a4" "gift").2.2
      ⟨"Anime Art", 1000⟩ ⟨"A4 (standard)", 0⟩ ⟨"None", 0⟩
      (by decide) (by decide) (by decide) (by decide)

/-- C1: for every client-initiated verify request with all fields supplied,
if the supplied signature does not decode to the HMAC-SHA256 digest of
razorpay_order_id ++ "|" ++ razorpay_payment_id under the gateway secret
(the timing-safe comparison of the source), the request is answered 400, and
if the signature is valid but no stored order has both the given internal id
and the verified gateway order id, the request is answered 404; in both cases
the orders, tickets and ticket_messages tables are unchanged (only an audit
log row is appended). -/
theorem paymentVerify_rejects_without_mutation
    (hmacBytes : String → String → List Nat) (secret : String)
    (now : Nat) (tn : String) (tid mid : Nat) (req : VerifyReq) (db : DB)
    (oid : Nat) (hoid : req.order_id = some oid)
    (h1 : req.razorpay_order_id ≠ "") (h2 : req.razorpay_payment_id ≠ "")
    (h3 : req.razorpay_signature ≠ "") :
    (hexDecode req.razorpay_signature ≠
        hmacBytes secret (req.razorpay_order_id ++ "|" ++ req.razorpay_payment_id) →
      (paymentVerify hmacBytes secret now tn tid mid req db).1.status = 400 ∧
      (paymentVerify hmacBytes secret now tn tid mid req db).2.orders = db.orders ∧
      (paymentVerify hmacBytes secret now tn tid mid req db).2.tickets = db.tickets ∧
      (paymentVerify hmacBytes secret now tn tid mid req db).2.ticket_messages =
        db.ticket_messages) ∧
    (hexDecode req.razorpay_signature =
        hmacBytes secret (req.razorpay_order_id ++ "|" ++ req.razorpay_payment_id) →
      findUnique
        (fun o => o.id == oid && o.razorpay_order_id == some req.razorpay_order_id)
        db.orders = none →
      (paymentVerify hmacBytes secret now tn tid mid req db).1.status = 404 ∧
      (paymentVerify hmacBytes secret now tn tid mid req db).2.orders = db.orders ∧
      (paymentVerify hmacBytes secret now tn tid mid req db).2.tickets = db.tickets ∧
      (paymentVerify hmacBytes secret now tn tid mid req db).2.ticket_messages =
        db.ticket_messages) := by
  constructor
  · intro hsig
    simp [paymentVerify, hoid, h1, h2, h3, hsig, logAdd]
  · intro hsig hfind
    simp [paymentVerify, hoid, h1, h2, h3, hsig, hfind, logAdd]

/-- Witness for C1: with a digest function returning byte 0, the signature
string 01 (decoding to byte 1) is rejected 400, and the valid signature 00
paired with a gateway order id that matches no stored order is rejected 404;
both leave the order, ticket and message tables of the sample store
untouched. -/
theorem paymentVerify_rejects_without_mutation_witness :
    ((paymentVerify (fun _ _ => [0]) "sec" 5 "TKT1" 10 20
        ⟨"rz1", "p1", "01", some 1⟩ sampleDB).1.status = 400 ∧
      (paymentVerify (fun _ _ => [0]) "sec" 5 "TKT1" 10 20
        ⟨"rz1", "p1", "01", some 1⟩ sampleDB).2.orders = sampleDB.orders ∧
      (paymentVerify (fun _ _ => [0]) "sec" 5 "TKT1" 10 20
        ⟨"rz1", "p1", "01", some 1⟩ sampleDB).2.tickets = sampleDB.tickets ∧
      (paymentVerify (fun _ _ => [0]) "sec" 5 "TKT1" 10 20
        ⟨"rz1", "p1", "01", some 1⟩ sampleDB).2.ticket_messages =
        sampleDB.ticket_messages) ∧
    ((paymentVerify (fun _ _ => [0]) "sec" 5 "TKT1" 10 20
        ⟨"other", "p1", "00", some 1⟩ sampleDB).1.status = 404 ∧
      (paymentVerify (fun _ _ => [0]) "sec" 5 "TKT1" 10 20
        ⟨"other", "p1", "00", some 1⟩ sampleDB).2.orders = sampleDB.orders ∧
      (paymentVerify (fun _ _ => [0]) "sec" 5 "TKT1" 10 20
        ⟨"other", "p1", "00", some 1⟩ sampleDB).2.tickets = sampleDB.tickets ∧
      (paymentVerify (fun _ _ => [0]) "sec" 5 "TKT1" 10 20
        ⟨"other", "p1", "00", some 1⟩ sampleDB).2.ticket_messages =
        sampleDB.ticket_messages) := by
  constructor
  · exact (paymentVerify_rejects_without_mutation (fun _ _ => [0]) "sec" 5 "TKT1"
      10 20 ⟨"rz1", "p1", "01", some 1⟩ sampleDB 1 rfl (by decide) (by decide)
      (by decide)).1 (by decide)
  · exact (paymentVerify_rejects_without_mutation (fun _ _ => [0]) "sec" 5 "TKT1"
      10 20 ⟨"other", "p1", "00", some 1⟩ sampleDB 1 rfl (by decide) (by decide)
      (by decide)).2 (by decide) (by decide)

/-- C4: calling the verify handler a second time with the same valid payload
on an order it has just verified returns success (200) and changes nothing at
all in the store: the paid transition and the single auto-ticket creation of
the first call are not re-run, so payment_verified transitions false to true
exactly once. -/
theorem paymentVerify_idempotent
    (hmacBytes : String → String → List Nat) (secret : String)
    (now now2 : Nat) (tn tn2 : String) (tid mid tid2 mid2 : Nat)
    (req : VerifyReq) (o : Order) (db : DB)
    (hdb : db.orders = [o])
    (hoid : req.order_id = some o.id)
    (hrz : o.razorpay_order_id = some req.razorpay_order_id)
    (h1 : req.razorpay_order_id ≠ "") (h2 : req.razorpay_payment_id ≠ "")
    (h3 : req.razorpay_signature ≠ "")
    (hsig : hexDecode req.razorpay_signature =
      hmacBytes secret (req.razorpay_order_id ++ "|" ++ req.razorpay_payment_id))
    (hunv : o.payment_verified = false) :
    (paymentVerify hmacBytes secret now tn tid mid req db).1 = ⟨200, true⟩ ∧
    (paymentVerify hmacBytes secret now tn tid mid req db).2.orders =
      [{ o with razorpay_payment_id := some req.razorpay_payment_id,
                razorpay_signature := some req.razorpay_signature,
                payment_verified := true, status := "advance_paid",
                paid_at := some now, updated_at := now }] ∧
    (paymentVerify hmacBytes secret now tn tid mid req db).2.tickets.length =
      db.tickets.length + 1 ∧
    (paymentVerify hmacBytes secret now2 tn2 tid2 mid2 req
      (paymentVerify hmacBytes secret now tn tid mid req db).2).1 = ⟨200, true⟩ ∧
    (paymentVerify hmacBytes secret now2 tn2 tid2 mid2 req
      (paymentVerify hmacBytes secret now tn tid mid req db).2).2 =
      (paymentVerify hmacBytes secret now tn tid mid req db).2 := by
  have hfu : findUnique
      (fun x => x.id == o.id && x.razorpay_order_id == some req.razorpay_order_id)
      [o] = some o := by
    simp [findUnique, hrz, List.filter]
  have hr1 : paymentVerify hmacBytes secret now tn tid mid req db =
      (⟨200, true⟩,
        { db with
            orders := [{ o with
              razorpay_payment_id := some req.razorpay_payment_id,
              razorpay_signature := some req.razorpay_signature,
              payment_verified := true, status := "advance_paid",
              paid_at := some now, updated_at := now }],
            tickets := db.tickets ++
              [{ id := tid, ticket_number := tn, order_id := some o.id,
                 user_id := o.user_id,
                 subject := "Order " ++ o.order_number ++ " - " ++ o.service_name,
                 category := "order", status := "open", priority := "normal",
                 resolved_at := none, updated_at := now, created_at := now }],
            ticket_messages := db.ticket_messages ++
              [{ id := mid, ticket_id := tid, author_id := none,
                 author_name := "System", is_admin := false, is_system := true,
                 message := confirmationMessage o, attachments := [],
                 created_at := now }],
            activity_logs := db.activity_logs ++
              [⟨o.user_id, "PAYMENT_VERIFIED", "order", some o.id⟩] }) := by
    simp [paymentVerify, hoid, h1, h2, h3, hsig, hfu, hunv, hdb, logAdd]
  refine ⟨by rw [hr1], by rw [hr1], by rw [hr1]; simp, ?_, ?_⟩
  · rw [hr1]
    simp [paymentVerify, hoid, h1, h2, h3, hsig, findUnique, hrz, List.filter]
  · rw [hr1]
    simp [paymentVerify, hoid, h1, h2, h3, hsig, findUnique, hrz, List.filter]

/-- Witness for C4: verifying the sample order with signature 00 under the
constant digest byte 0 succeeds, marks it paid, adds one auto ticket, and a
repeated identical call succeeds without further change. -/
theorem paymentVerify_idempotent_witness :
    (paymentVerify (fun _ _ => [0]) "sec" 5 "TKT1" 10 20
      ⟨"rz1", "p1", "00", some 1⟩ sampleDB).1 = ⟨200, true⟩ ∧
    (paymentVerify (fun _ _ => [0]) "sec" 5 "TKT1" 10 20
      ⟨"rz1", "p1", "00", some 1⟩ sampleDB).2.orders =
      [{ sampleOrder with
          razorpay_payment_id := some "p1",
          razorpay_signature := some "00", payment_verified := true,
          status := "advance_paid", paid_at := some 5, updated_at := 5 }] ∧
    (paymentVerify (fun _ _ => [0]) "sec" 5 "TKT1" 10 20
      ⟨"rz1", "p1", "00", some 1⟩ sampleDB).2.tickets.length =
      sampleDB.tickets.length + 1 ∧
    (paymentVerify (fun _ _ => [0]) "sec" 6 "TKT2" 11 21
      ⟨"rz1", "p1", "00", some 1⟩
      (paymentVerify (fun _ _ => [0]) "sec" 5 "TKT1" 10 20
        ⟨"rz1", "p1", "00", some 1⟩ sampleDB).2).1 = ⟨200, true⟩ ∧
    (paymentVerify (fun _ _ => [0]) "sec" 6 "TKT2" 11 21
      ⟨"rz1", "p1", "00", some 1⟩
      (paymentVerify (fun _ _ => [0]) "sec" 5 "TKT1" 10 20
        ⟨"rz1", "p1", "00", some 1⟩ sampleDB).2).2 =
      (paymentVerify (fun _ _ => [0]) "sec" 5 "TKT1" 10 20
        ⟨"rz1", "p1", "00", some 1⟩ sampleDB).2 :=
  paymentVerify_idempotent (fun _ _ => [0]) "sec" 5 6 "TKT1" "TKT2" 10 20 11 21
    ⟨"rz1", "p1", "00", some 1⟩ sampleOrder sampleDB rfl rfl rfl
    (by decide) (by decide) (by decide) (by decide) rfl

/-- Counterexample to C2: when the webhook observes the valid payment first
(payment.captured for gateway order rz1) and the client verify call runs
second, the order ends up paid and the second path reports success, yet the
number of auto tickets linked to the paid order is 0, not 1 — the webhook
path never creates the auto support ticket. -/
theorem autoTicket_exactly_once_counterexample :
    (paymentVerify (fun _ _ => [0]) "sec" 6 "TKT1" 10 20
        ⟨"rz1", "pay1", "00", some 1⟩
        (handlePaymentCaptured 5 (some ⟨"pay1", "rz1", 500⟩) sampleDB)).1 =
      ⟨200, true⟩ ∧
    ((paymentVerify (fun _ _ => [0]) "sec" 6 "TKT1" 10 20
        ⟨"rz1", "pay1", "00", some 1⟩
        (handlePaymentCaptured 5 (some ⟨"pay1", "rz1", 500⟩) sampleDB)).2.orders.all
      (fun x => x.payment_verified)) = true ∧
    ((paymentVerify (fun _ _ => [0]) "sec" 6 "TKT1" 10 20
        ⟨"rz1", "pay1", "00", some 1⟩
        (handlePaymentCaptured 5 (some ⟨"pay1", "rz1", 500⟩) sampleDB)).2.tickets.filter
      (fun t => t.order_id == some 1)).length = 0 := by
  decide

/-- C2 as amended: for an unpaid order observed by a valid payment, whichever
of the two confirmation paths runs first performs the mark-paid mutation and
the second path is a no-op confirming the same state; only the
client-initiated verify path creates the auto support ticket, so at most one
auto ticket exists per paid order — exactly one when the verify path runs
first, none when the webhook path runs first. -/
theorem paymentPaths_interleaving
    (hmacBytes : String → String → List Nat) (secret : String)
    (nowA nowB : Nat) (tn : String) (tid mid : Nat)
    (req : VerifyReq) (p : PaymentEntity) (o : Order) (db : DB)
    (hdb : db.orders = [o]) (hdbT : db.tickets = [])
    (hoid : req.order_id = some o.id)
    (hrz : o.razorpay_order_id = some req.razorpay_order_id)
    (hp : p.order_id = req.razorpay_order_id)
    (h1 : req.razorpay_order_id ≠ "") (h2 : req.razorpay_payment_id ≠ "")
    (h3 : req.razorpay_signature ≠ "")
    (hsig : hexDecode req.razorpay_signature =
      hmacBytes secret (req.razorpay_order_id ++ "|" ++ req.razorpay_payment_id))
    (hunv : o.payment_verified = false) :
    (((paymentVerify hmacBytes secret nowA tn tid mid req db).2.orders.all
        (fun x => x.payment_verified)) = true ∧
      (paymentVerify hmacBytes secret nowA tn tid mid req db).2.tickets.length = 1 ∧
      handlePaymentCaptured nowB (some p)
        (paymentVerify hmacBytes secret nowA tn tid mid req db).2 =
        (paymentVerify hmacBytes secret nowA tn tid mid req db).2) ∧
    (((handlePaymentCaptured nowB (some p) db).orders.all
        (fun x => x.payment_verified)) = true ∧
      (handlePaymentCaptured nowB (some p) db).tickets.length = 0 ∧
      (paymentVerify hmacBytes secret nowA tn tid mid req
        (handlePaymentCaptured nowB (some p) db)).1 = ⟨200, true⟩ ∧
      (paymentVerify hmacBytes secret nowA tn tid mid req
        (handlePaymentCaptured nowB (some p) db)).2 =
        handlePaymentCaptured nowB (some p) db) ∧
    ((paymentVerify hmacBytes secret nowA tn tid mid req
        (handlePaymentCaptured nowB (some p) db)).2.tickets.length ≤ 1 ∧
      (handlePaymentCaptured nowB (some p)
        (paymentVerify hmacBytes secret nowA tn tid mid req db).2).tickets.length ≤ 1) := by
  have hfu : findUnique
      (fun x => x.id == o.id && x.razorpay_order_id == some req.razorpay_order_id)
      [o] = some o := by
    simp [findUnique, hrz, List.filter]
  have hfw : findUnique (fun x => x.razorpay_order_id == some p.order_id) [o] =
      some o := by
    simp [findUnique, hrz, hp, List.filter]
  have hverify : paymentVerify hmacBytes secret nowA tn tid mid req db =
      (⟨200, true⟩,
        { db with
            orders := [{ o with
              razorpay_payment_id := some req.razorpay_payment_id,
              razorpay_signature := some req.razorpay_signature,
              payment_verified := true, status := "advance_paid",
              paid_at := some nowA, updated_at := nowA }],
            tickets := db.tickets ++
              [{ id := tid, ticket_number := tn, order_id := some o.id,
                 user_id := o.user_id,
                 subject := "Order " ++ o.order_number ++ " - " ++ o.service_name,
                 category := "order", status := "open", priority := "normal",
                 resolved_at := none, updated_at := nowA, created_at := nowA }],
            ticket_messages := db.ticket_messages ++
              [{ id := mid, ticket_id := tid, author_id := none,
                 author_name := "System", is_admin := false, is_system := true,
                 message := confirmationMessage o, attachments := [],
                 created_at := nowA }],
            activity_logs := db.activity_logs ++
              [⟨o.user_id, "PAYMENT_VERIFIED", "order", some o.id⟩] }) := by
    simp [paymentVerify, hoid, h1, h2, h3, hsig, hfu, hunv, hdb, logAdd]
  have hcapture : handlePaymentCaptured nowB (some p) db =
      { db with
          orders := [{ o with
            razorpay_payment_id := some p.id,
            payment_verified := true, status := "advance_paid",
            paid_at := some nowB, updated_at := nowB }],
          activity_logs := db.activity_logs ++
            [⟨o.user_id, "PAYMENT_CAPTURED_WEBHOOK", "order", some o.id⟩] } := by
    simp [handlePaymentCaptured, hdb, hfw, hunv, logAdd]
  refine ⟨⟨?_, ?_, ?_⟩, ⟨?_, ?_, ?_, ?_⟩, ?_, ?_⟩
  · rw [hverify]; simp
  · rw [hverify]; simp [hdbT]
  · rw [hverify]
    simp [handlePaymentCaptured, findUnique, hrz, hp, List.filter]
  · rw [hcapture]; simp
  · rw [hcapture]; simp [hdbT]
  · rw [hcapture]
    simp [paymentVerify, hoid, h1, h2, h3, hsig, findUnique, hrz, List.filter]
  · rw [hcapture]
    simp [paymentVerify, hoid, h1, h2, h3, hsig, findUnique, hrz, List.filter]
  · rw [hcapture]
    simp [paymentVerify, hoid, h1, h2, h3, hsig, findUnique, hrz, List.filter, hdbT]
  · rw [hverify]
    simp [handlePaymentCaptured, findUnique, hrz, hp, List.filter, hdbT]

/-- Witness for the amended C2 on the sample store: both interleavings leave
the order paid, the second path a no-op, with one auto ticket when the verify
path ran first and none when the webhook ran first. -/
theorem paymentPaths_interleaving_witness :
    (((paymentVerify (fun _ _ => [0]) "sec" 6 "TKT1" 10 20
        ⟨"rz1", "pay1", "00", some 1⟩ sampleDB).2.orders.all
        (fun x => x.payment_verified)) = true ∧
      (paymentVerify (fun _ _ => [0]) "sec" 6 "TKT1" 10 20
        ⟨"rz1", "pay1", "00", some 1⟩ sampleDB).2.tickets.length = 1 ∧
      handlePaymentCaptured 5 (some ⟨"pay1", "rz1", 500⟩)
        (paymentVerify (fun _ _ => [0]) "sec" 6 "TKT1" 10 20
          ⟨"rz1", "pay1", "00", some 1⟩ sampleDB).2 =
        (paymentVerify (fun _ _ => [0]) "sec" 6 "TKT1" 10 20
          ⟨"rz1", "pay1", "00", some 1⟩ sampleDB).2) ∧
    (((handlePaymentCaptured 5 (some ⟨"pay1", "rz1", 500⟩) sampleDB).orders.all
        (fun x => x.payment_verified)) = true ∧
      (handlePaymentCaptured 5 (some ⟨"pay1", "rz1", 500⟩) sampleDB).tickets.length = 0 ∧
      (paymentVerify (fun _ _ => [0]) "sec" 6 "TKT1" 10 20
        ⟨"rz1", "pay1", "00", some 1⟩
        (handlePaymentCaptured 5 (some ⟨"pay1", "rz1", 500⟩) sampleDB)).1 =
        ⟨200, true⟩ ∧
      (paymentVerify (fun _ _ => [0]) "sec" 6 "TKT1" 10 20
        ⟨"rz1", "pay1", "00", some 1⟩
        (handlePaymentCaptured 5 (some ⟨"pay1", "rz1", 500⟩) sampleDB)).2 =
        handlePaymentCaptured 5 (some ⟨"pay1", "rz1", 500⟩) sampleDB) ∧
    ((paymentVerify (fun _ _ => [0]) "sec" 6 "TKT1" 10 20
        ⟨"rz1", "pay1", "00", some 1⟩
        (handlePaymentCaptured 5 (some ⟨"pay1", "rz1", 500⟩) sampleDB)).2.tickets.length ≤ 1 ∧
      (handlePaymentCaptured 5 (some ⟨"pay1", "rz1", 500⟩)
        (paymentVerify (fun _ _ => [0]) "sec" 6 "TKT1" 10 20
          ⟨"rz1", "pay1", "00", some 1⟩ sampleDB).2).tickets.length ≤ 1) :=
  paymentPaths_interleaving (fun _ _ => [0]) "sec" 6 5 "TKT1" 10 20
    ⟨"rz1", "pay1", "00", some 1⟩ ⟨"pay1", "rz1", 500⟩ sampleOrder sampleDB
    rfl rfl rfl rfl rfl (by decide) (by decide) (by decide) (by decide) rfl

/-- Counterexample to C5: an inbound POST webhook carrying a wrong signature
while a webhook secret is configured is answered 400, not 200 — signature
failures are surfaced to the gateway as failures. -/
theorem webhookHandler_always200_counterexample :
    (webhookHandler (fun _ _ => "good") (some "whsec") 0
      ⟨"POST", some "bad", "rawbody", "payment.captured", none, none⟩
      sampleDB).1 ≠ 200 ∧
    (webhookHandler (fun _ _ => "good") (some "whsec") 0
      ⟨"POST", some "bad", "rawbody", "payment.captured", none, none⟩
      sampleDB).1 = 400 := by
  decide

/-- C5 as amended: every inbound POST webhook that passes the signature check
(or skips it because no webhook secret is configured) is answered 200,
whatever the event — known, unknown, or with a missing payload entity; a
missing or invalid signature while a secret is configured is answered 400,
and a non-POST method 405. -/
theorem webhookHandler_acks_200
    (hmacHex : String → String → String) (webhookSecret : Option String)
    (now : Nat) (req : WebhookReq) (db : DB)
    (hm : req.method = "POST")
    (hsig : webhookSecret = none ∨
      ∃ s, webhookSecret = some s ∧ req.signature = some (hmacHex s req.rawBody)) :
    (webhookHandler hmacHex webhookSecret now req db).1 = 200 := by
  rcases hsig with h | ⟨s, hs, hg⟩
  · simp only [webhookHandler, hm, h]
    split <;> rename_i hx
    · simp at hx
    · rfl
  · simp only [webhookHandler, hm, hs, hg]
    split <;> rename_i hx
    · simp at hx
    · simp

/-- Witness for the amended C5: with no secret configured an unknown event is
acknowledged 200, and with a secret configured a correctly signed
payment.captured event is acknowledged 200. -/
theorem webhookHandler_acks_200_witness :
    (webhookHandler (fun _ _ => "good") none 0
      ⟨"POST", none, "rawbody", "totally.unknown", none, none⟩ sampleDB).1 = 200 ∧
    (webhookHandler (fun _ _ => "good") (some "whsec") 0
      ⟨"POST", some "good", "rawbody", "payment.captured",
        some ⟨"pay1", "rz1", 500⟩, none⟩ sampleDB).1 = 200 := by
  constructor
  · exact webhookHandler_acks_200 (fun _ _ => "good") none 0
      ⟨"POST", none, "rawbody", "totally.unknown", none, none⟩ sampleDB rfl
      (Or.inl rfl)
  · exact webhookHandler_acks_200 (fun _ _ => "good") (some "whsec") 0
      ⟨"POST", some "good", "rawbody", "payment.captured",
        some ⟨"pay1", "rz1", 500⟩, none⟩ sampleDB rfl
      (Or.inr ⟨"whsec", rfl, rfl⟩)

/-- C3: when an authenticated admin who is not on the super-admin allow-list
attempts an action gated by a permission absent from their stored permission
set, the guard denies the action, demotes that user row to role user with
admin_permissions cleared, stamps revoked_at on every refresh token row of
the user, appends an access-violation audit log entry, and produces a 403
response with the terminated flag set. -/
theorem checkPermissionOrTerminate_terminates
    (superAdmins : List String) (now : Nat) (user : UserRec)
    (permission : String) (db : DB)
    (hrole : user.role = "admin")
    (hsa : superAdmins.contains (lowerString user.email) = false)
    (hperm : permsLookup user permission = none) :
    (checkPermissionOrTerminate superAdmins now user permission db).1 = false ∧
    (∀ u ∈ (checkPermissionOrTerminate superAdmins now user permission db).2.1.users,
      u.id = user.id → u.role = "user" ∧ u.admin_permissions = none) ∧
    (∀ t ∈ (checkPermissionOrTerminate superAdmins now user permission db).2.1.refresh_tokens,
      t.user_id = user.id → t.revoked_at = some now) ∧
    (∃ e ∈ (checkPermissionOrTerminate superAdmins now user permission db).2.1.activity_logs,
      e.action = "ADMIN_ACCESS_TERMINATED" ∧ e.user_id = some user.id) ∧
    (checkPermissionOrTerminate superAdmins now user permission db).2.2 =
      some ⟨403, true⟩ := by
  have hnotsa : isSuperAdmin superAdmins user = false := by
    unfold isSuperAdmin
    rw [hsa, Bool.and_false]
  have hnoperm : hasPermission superAdmins user permission = false := by
    unfold hasPermission
    rw [hnotsa]
    simp [hperm, hrole]
  have hres : checkPermissionOrTerminate superAdmins now user permission db =
      (false,
        { db with
            users := db.users.map (fun u =>
              if u.id == user.id then
                { u with role := "user", admin_permissions := none }
              else u),
            refresh_tokens := db.refresh_tokens.map (fun t =>
              if t.user_id == user.id then { t with revoked_at := some now }
              else t),
            activity_logs := db.activity_logs ++
              [⟨some user.id, "ADMIN_ACCESS_TERMINATED", "user", some user.id⟩] },
        some ⟨403, true⟩) := by
    unfold checkPermissionOrTerminate
    rw [hnotsa, hnoperm]
    simp [logAdd]
  rw [hres]
  refine ⟨rfl, ?_, ?_, ?_, rfl⟩
  · intro u hu hid
    rcases List.mem_map.mp hu with ⟨x, _, rfl⟩
    by_cases hxx : (x.id == user.id) = true
    · simp [hxx]
    · simp only [hxx, if_false, Bool.false_eq_true] at hid ⊢
      simp at hxx
      simp [hxx] at hid
  · intro t ht hid
    rcases List.mem_map.mp ht with ⟨x, _, rfl⟩
    by_cases hxx : (x.user_id == user.id) = true
    · simp [hxx]
    · simp only [hxx, if_false, Bool.false_eq_true] at hid ⊢
      simp at hxx
      simp [hxx] at hid
  · exact ⟨⟨some user.id, "ADMIN_ACCESS_TERMINATED", "user", some user.id⟩,
      List.mem_append_right _ (List.mem_singleton.mpr rfl), rfl, rfl⟩

/-- Witness for C3: the admin eve with only the manage_tickets permission,
not on the allow-list, probing manage_orders: denied, demoted, her refresh
token revoked, the violation logged, response 403 with terminated set. -/
theorem checkPermissionOrTerminate_terminates_witness :
    (checkPermissionOrTerminate ["boss@x.com"] 9
      ⟨2, "Eve@x.com", "Eve", "admin", false, some [("manage_tickets", true)]⟩
      "manage_orders"
      ⟨[⟨2, "Eve@x.com", "Eve", "admin", false, some [("manage_tickets", true)]⟩],
        [], [], [], [⟨1, 2, none⟩], []⟩).1 = false ∧
    (∀ u ∈ (checkPermissionOrTerminate ["boss@x.com"] 9
      ⟨2, "Eve@x.com", "Eve", "admin", false, some [("manage_tickets", true)]⟩
      "manage_orders"
      ⟨[⟨2, "Eve@x.com", "Eve", "admin", false, some [("manage_tickets", true)]⟩],
        [], [], [], [⟨1, 2, none⟩], []⟩).2.1.users,
      u.id = (2 : Nat) → u.role = "user" ∧ u.admin_permissions = none) ∧
    (∀ t ∈ (checkPermissionOrTerminate ["boss@x.com"] 9
      ⟨2, "Eve@x.com", "Eve", "admin", false, some [("manage_tickets", true)]⟩
      "manage_orders"
      ⟨[⟨2, "Eve@x.com", "Eve", "admin", false, some [("manage_tickets", true)]⟩],
        [], [], [], [⟨1, 2, none⟩], []⟩).2.1.refresh_tokens,
      t.user_id = (2 : Nat) → t.revoked_at = some 9) ∧
    (∃ e ∈ (checkPermissionOrTerminate ["boss@x.com"] 9
      ⟨2, "Eve@x.com", "Eve", "admin", false, some [("manage_tickets", true)]⟩
      "manage_orders"
      ⟨[⟨2, "Eve@x.com", "Eve", "admin", false, some [("manage_tickets", true)]⟩],
        [], [], [], [⟨1, 2, none⟩], []⟩).2.1.activity_logs,
      e.action = "ADMIN_ACCESS_TERMINATED" ∧ e.user_id = some 2) ∧
    (checkPermissionOrTerminate ["boss@x.com"] 9
      ⟨2, "Eve@x.com", "Eve", "admin", false, some [("manage_tickets", true)]⟩
      "manage_orders"
      ⟨[⟨2, "Eve@x.com", "Eve", "admin", false, some [("manage_tickets", true)]⟩],
        [], [], [], [⟨1, 2, none⟩], []⟩).2.2 = some ⟨403, true⟩ :=
  checkPermissionOrTerminate_terminates ["boss@x.com"] 9
    ⟨2, "Eve@x.com", "Eve", "admin", false, some [("manage_tickets", true)]⟩
    "manage_orders"
    ⟨[⟨2, "Eve@x.com", "Eve", "admin", false, some [("manage_tickets", true)]⟩],
      [], [], [], [⟨1, 2, none⟩], []⟩
    rfl (by decide) (by decide)

/-- After k calls at one instant inside one window, with k at most the limit,
the row records exactly k attempts and no block. -/
theorem runAttempts_within (now maxA winMs : Nat) (hw : 0 < winMs) :
    ∀ k, k ≤ maxA →
      runAttempts k now maxA winMs =
        if k = 0 then none else some ⟨k, now, none⟩ := by
  intro k
  induction k with
  | zero => simp [runAttempts]
  | succ n ih =>
    intro hk
    have hn : n ≤ maxA := Nat.le_of_succ_le hk
    have hrow := ih hn
    by_cases hn0 : n = 0
    · subst hn0
      simp [runAttempts, hrow, checkRateLimitStep]
    · have hlt : ¬ maxA ≤ n := by omega
      have hwin : now < now + winMs := by omega
      simp [runAttempts, hrow, hn0, checkRateLimitStep, hwin, hlt]

/-- C8: for a limit N and window W, starting from no counter row and calling
at one instant: each of the first N attempts is allowed, the (N+1)-th attempt
is rejected and stamps a five-minute (300000 ms) block on the row; a step on
a row with no active block whose window has elapsed resets the counter to 1,
restarts the window, clears the block and allows; and a step on a row whose
blocked_until lies in the future rejects with the remaining seconds as the
retry-after signal, with no condition on the window. -/
theorem checkRateLimit_claim (N W now : Nat) (hN : 1 ≤ N) (hW : 0 < W) :
    (∀ k, k < N →
      (checkRateLimitStep (runAttempts k now N W) now N W).allowed = true) ∧
    (checkRateLimitStep (runAttempts N now N W) now N W).allowed = false ∧
    (checkRateLimitStep (runAttempts N now N W) now N W).row =
      some ⟨N, now, some (now + 300000)⟩ ∧
    (∀ a w bu, (bu = none ∨ ∃ b, bu = some b ∧ b ≤ now) → w + W ≤ now →
      checkRateLimitStep (some ⟨a, w, bu⟩) now N W = ⟨true, none, some ⟨1, now, none⟩⟩) ∧
    (∀ l : RLRow, ∀ b, l.blocked_until = some b → now < b →
      checkRateLimitStep (some l) now N W =
        ⟨false, some ((b - now + 999) / 1000), some l⟩) := by
  have hrowN := runAttempts_within now N W hW N (Nat.le_refl N)
  have hN0 : ¬ N = 0 := by omega
  refine ⟨?_, ?_, ?_, ?_, ?_⟩
  · intro k hk
    have hrow := runAttempts_within now N W hW k (Nat.le_of_lt hk)
    by_cases hk0 : k = 0
    · subst hk0
      simp [hrow, checkRateLimitStep]
    · have hlt : ¬ N ≤ k := by omega
      have hwin : now < now + W := by omega
      simp [hrow, hk0, checkRateLimitStep, hwin, hlt]
  · have hwin : now < now + W := by omega
    simp [hrowN, hN0, checkRateLimitStep, hwin]
  · have hwin : now < now + W := by omega
    simp [hrowN, hN0, checkRateLimitStep, hwin]
  · rintro a w bu (rfl | ⟨b, rfl, hb⟩) hexp
    · have hwin : ¬ now < w + W := by omega
      simp [checkRateLimitStep, hwin]
    · have hbna : ¬ now < b := by omega
      have hwin : ¬ now < w + W := by omega
      simp [checkRateLimitStep, hbna, hwin]
  · intro l b hbu hb
    simp [checkRateLimitStep, hbu, hb]

/-- Witness for C8 at N = 2, W = 1000 ms, now = 5: two attempts pass, the
third is rejected with a block until 300005; an expired-window row resets;
an actively blocked row is rejected with its retry-after. -/
theorem checkRateLimit_claim_witness :
    (∀ k, k < 2 →
      (checkRateLimitStep (runAttempts k 5 2 1000) 5 2 1000).allowed = true) ∧
    (checkRateLimitStep (runAttempts 2 5 2 1000) 5 2 1000).allowed = false ∧
    (checkRateLimitStep (runAttempts 2 5 2 1000) 5 2 1000).row =
      some ⟨2, 5, some (5 + 300000)⟩ ∧
    (∀ a w bu, (bu = none ∨ ∃ b, bu = some b ∧ b ≤ 5) → w + 1000 ≤ 5 →
      checkRateLimitStep (some ⟨a, w, bu⟩) 5 2 1000 = ⟨true, none, some ⟨1, 5, none⟩⟩) ∧
    (∀ l : RLRow, ∀ b, l.blocked_until = some b → 5 < b →
      checkRateLimitStep (some l) 5 2 1000 =
        ⟨false, some ((b - 5 + 999) / 1000), some l⟩) :=
  checkRateLimit_claim 2 1000 5 (by decide) (by decide)

/-- C9: a non-admin owner of a ticket requesting any valid status other than
closed is rejected 403 with the store untouched, requesting closed succeeds
with 200 and every stored row of the ticket list ends with status closed; and
posting a message to a ticket whose status is closed is rejected 400 before
anything is appended, leaving the store untouched. -/
theorem ticket_close_and_closed_message_rules
    (superAdmins : List String) (user : UserRec) (t : Ticket) (db : DB)
    (now msgId : Nat) (message : String) (atts : List Attachment)
    (hdb : db.tickets = [t]) (howner : t.user_id = some user.id)
    (hrole : user.role ≠ "admin") :
    (∀ s, s ∈ validStatuses → s ≠ "closed" →
      handleUpdateTicket superAdmins user t.id (some s) none now db = (403, db)) ∧
    ((handleUpdateTicket superAdmins user t.id (some "closed") none now db).1 = 200 ∧
      ∀ x ∈ (handleUpdateTicket superAdmins user t.id (some "closed") none now db).2.tickets,
        x.status = "closed") ∧
    (t.status = "closed" →
      (handleAddMessage user t.id message atts now msgId db).1 = 400 ∧
      (handleAddMessage user t.id message atts now msgId db).2 = db) := by
  have hfu : findUnique (fun x => x.id == t.id) [t] = some t := by
    simp [findUnique, List.filter]
  have hclose : handleUpdateTicket superAdmins user t.id (some "closed") none now db =
      (200,
        { db with
            tickets := [{ t with
              status := "closed", resolved_at := some now,
              updated_at := now }],
            activity_logs := db.activity_logs ++
              [⟨some user.id, "TICKET_STATUS_UPDATED", "ticket", some t.id⟩] }) := by
    simp [handleUpdateTicket, hdb, hfu, howner, handleUpdateTicketCore,
      validStatuses, hrole, logAdd]
  refine ⟨?_, ⟨?_, ?_⟩, ?_⟩
  · intro s hs hne
    simp only [validStatuses, List.mem_cons, List.not_mem_nil, or_false] at hs
    rcases hs with rfl | rfl | rfl | rfl | rfl <;>
      first
        | exact absurd rfl hne
        | simp [handleUpdateTicket, hdb, hfu, howner, handleUpdateTicketCore,
            validStatuses, hrole]
  · rw [hclose]
  · intro x hx
    rw [hclose] at hx
    simp at hx
    rw [hx]
  · intro hclosed
    constructor <;>
      simp [handleAddMessage, hdb, hfu, howner, hclosed]

/-- Witness for C9: the owner (a plain user) of an already closed ticket is
refused every non-closed status with 403, may set closed with 200, and
posting a message to the closed ticket is refused 400 with no change. -/
theorem ticket_close_and_closed_message_rules_witness :
    (∀ s, s ∈ validStatuses → s ≠ "closed" →
      handleUpdateTicket [] ⟨7, "u@x.com", "U", "user", false, none⟩ 3 (some s) none 50
        ⟨[], [], [⟨3, "TKT3", none, some 7, "subj", "general", "closed", "normal",
          none, 0, 0⟩], [], [], []⟩ =
        (403, ⟨[], [], [⟨3, "TKT3", none, some 7, "subj", "general", "closed",
          "normal", none, 0, 0⟩], [], [], []⟩)) ∧
    ((handleUpdateTicket [] ⟨7, "u@x.com", "U", "user", false, none⟩ 3
        (some "closed") none 50
        ⟨[], [], [⟨3, "TKT3", none, some 7, "subj", "general", "closed", "normal",
          none, 0, 0⟩], [], [], []⟩).1 = 200 ∧
      ∀ x ∈ (handleUpdateTicket [] ⟨7, "u@x.com", "U", "user", false, none⟩ 3
        (some "closed") none 50
        ⟨[], [], [⟨3, "TKT3", none, some 7, "subj", "general", "closed", "normal",
          none, 0, 0⟩], [], [], []⟩).2.tickets,
        x.status = "closed") ∧
    ((⟨3, "TKT3", none, some 7, "subj", "general", "closed", "normal",
        none, 0, 0⟩ : Ticket).status = "closed" →
      (handleAddMessage ⟨7, "u@x.com", "U", "user", false, none⟩ 3 "hello" [] 50 90
        ⟨[], [], [⟨3, "TKT3", none, some 7, "subj", "general", "closed", "normal",
          none, 0, 0⟩], [], [], []⟩).1 = 400 ∧
      (handleAddMessage ⟨7, "u@x.com", "U", "user", false, none⟩ 3 "hello" [] 50 90
        ⟨[], [], [⟨3, "TKT3", none, some 7, "subj", "general", "closed", "normal",
          none, 0, 0⟩], [], [], []⟩).2 =
        ⟨[], [], [⟨3, "TKT3", none, some 7, "subj", "general", "closed", "normal",
          none, 0, 0⟩], [], [], []⟩) :=
  ticket_close_and_closed_message_rules [] ⟨7, "u@x.com", "U", "user", false, none⟩
    ⟨3, "TKT3", none, some 7, "subj", "general", "closed", "normal", none, 0, 0⟩
    ⟨[], [], [⟨3, "TKT3", none, some 7, "subj", "general", "closed", "normal",
      none, 0, 0⟩], [], [], []⟩ 50 90 "hello" []
    rfl rfl (by decide)

/-- C10: for every authenticated user whose role is not admin, the order
listing answers 200, leaves the store untouched, and every order in the
response has user_id equal to the requesting user, so no guest order
(user_id none) and no other user order can appear. -/
theorem handleGetOrders_scoped
    (superAdmins : List String) (now : Nat) (user : UserRec)
    (pageQ limitQ : Option Nat) (db : DB)
    (hrole : user.role ≠ "admin") :
    (handleGetOrders superAdmins now user pageQ limitQ db).1 = 200 ∧
    (handleGetOrders superAdmins now user pageQ limitQ db).2.2 = db ∧
    ∀ o ∈ (handleGetOrders superAdmins now user pageQ limitQ db).2.1,
      o.user_id = some user.id := by
  refine ⟨by simp [handleGetOrders, hrole], by simp [handleGetOrders, hrole], ?_⟩
  intro o ho
  simp only [handleGetOrders, hrole, ne_eq, not_false_eq_true, if_true] at ho
  simp only [listOwnOrders] at ho
  have h2 := List.drop_subset _ _ (List.take_subset _ _ ho)
  have h3 : o ∈ db.orders ∧ o.user_id = some user.id := by
    simpa [sortByCreatedDesc] using h2
  exact h3.2

/-- Witness for C10: user 7 listing orders over a store holding one order of
user 7, one of user 8 and one guest order sees 200, an untouched store, and
only rows with user_id 7. -/
theorem handleGetOrders_scoped_witness :
    (handleGetOrders [] 0 ⟨7, "u@x.com", "U", "user", false, none⟩ none none
      ⟨[], [sampleOrder,
        { sampleOrder with id := 2, user_id := some 8, order_number := "ORD2" },
        { sampleOrder with id := 3, user_id := none, order_number := "ORD3" }],
        [], [], [], []⟩).1 = 200 ∧
    (handleGetOrders [] 0 ⟨7, "u@x.com", "U", "user", false, none⟩ none none
      ⟨[], [sampleOrder,
        { sampleOrder with id := 2, user_id := some 8, order_number := "ORD2" },
        { sampleOrder with id := 3, user_id := none, order_number := "ORD3" }],
        [], [], [], []⟩).2.2 =
      ⟨[], [sampleOrder,
        { sampleOrder with id := 2, user_id := some 8, order_number := "ORD2" },
        { sampleOrder with id := 3, user_id := none, order_number := "ORD3" }],
        [], [], [], []⟩ ∧
    ∀ o ∈ (handleGetOrders [] 0 ⟨7, "u@x.com", "U", "user", false, none⟩ none none
      ⟨[], [sampleOrder,
        { sampleOrder with id := 2, user_id := some 8, order_number := "ORD2" },
        { sampleOrder with id := 3, user_id := none, order_number := "ORD3" }],
        [], [], [], []⟩).2.1,
      o.user_id = some 7 :=
  handleGetOrders_scoped [] 0 ⟨7, "u@x.com", "U", "user", false, none⟩ none none
    ⟨[], [sampleOrder,
      { sampleOrder with id := 2, user_id := some 8, order_number := "ORD2" },
      { sampleOrder with id := 3, user_id := none, order_number := "ORD3" }],
      [], [], [], []⟩
    (by decide)

end Arthuzist
